import Mathlib

/-!
Verification development for the Flux2 LoRA Manager training-process
supervisor (`src/process.py`, `src/import_blocker.py`, `src/venv_manager.py`).

The Python code is shallowly embedded as executable Lean definitions:

* POSIX path strings and the `os.path` helpers the code uses
  (`join`, `abspath`, `normpath`, `dirname`, `basename`, `isabs`),
  with the filesystem abstracted as a predicate `String → Bool`
  (the result of `os.path.exists`).
* `TrainingProcessManager` state (`process`, `stop_event`, `log_lines`,
  `_wrapper_script`) as a `Manager` record, with `Popen` handles carrying
  an identity (`pid`) and a fixed `poll()` result.
* The script/candidate resolution block of `start_training`
  (process.py lines 184-230), the script-existence verification
  (lines 405-435) and the wrapper substitution (lines 361-383) as the
  pure pipeline `startPipeline`.
* The `PYTHONPATH` composition (venv_manager.get_modified_env and
  process.py lines 232-256) as `fullPythonPath`.
* The wrapper-file lifecycle (creation in `start_training`, deletion in
  the `finally` block of `_log_reader`) as `run_files` over a list of
  existing temporary files.
* The log ring buffer step (process.py lines 496-501) as `appendLogLine`.
* The substitute objects installed for blocked modules
  (`ProblematicModuleBlocker.load_module` in import_blocker.py and the
  `_EmergencyTriton` class in the generated wrapper script) as a small
  Python-object value model `PyObj` with attribute lookup, truthiness
  and single-argument call.

`os.name` is taken to be POSIX (`os.pathsep = ":"`, separator `"/"`);
the code's Windows branches only change the termination signal and the
path separator, which none of the verified properties depend on.
-/

/- ### String primitives

Core `String.splitOn` / `startsWith` / `endsWith` do not reduce in the
kernel, so the embedding uses list-of-char implementations with the same
semantics on the inputs that occur here. -/

/-- Whether the first character list is an initial segment of the second. -/
def charsLead : List Char → List Char → Bool
  | [], _ => true
  | _ :: _, [] => false
  | a :: as, b :: bs => a = b && charsLead as bs

/-- Python `s.startswith(pre)`. -/
def strStartsWith (s pre : String) : Bool :=
  charsLead pre.data s.data

/-- Python `s.endswith(suf)`. -/
def strEndsWith (s suf : String) : Bool :=
  charsLead suf.data.reverse s.data.reverse

/-- Split a character list on a separator character. -/
def splitSepAux (c : Char) : List Char → List Char → List (List Char)
  | [], acc => [acc.reverse]
  | x :: rest, acc =>
    if x = c then acc.reverse :: splitSepAux c rest []
    else splitSepAux c rest (x :: acc)

/-- Python `s.split(c)` for a one-character separator
(`os.pathsep` and the path separator are single characters on POSIX). -/
def splitSep (c : Char) (s : String) : List String :=
  (splitSepAux c s.data []).map String.mk

/- ### os.path model (POSIX) -/

/-- Python `os.path.isabs`. -/
def isabs (p : String) : Bool :=
  strStartsWith p "/"

/-- Python `os.path.join(a, b)` for two components: an absolute second
component replaces the first, otherwise the parts are joined with `/`. -/
def pjoin (a b : String) : String :=
  if isabs b then b
  else if strEndsWith a "/" || a = "" then a ++ b
  else a ++ "/" ++ b

/-- Component normalisation for `os.path.normpath`: drops `.`, resolves
`..` against the accumulated stack; for an absolute path a leading `..`
at the root is dropped, for a relative path it is kept. -/
def normComps (abs : Bool) : List String → List String → List String
  | [], acc => acc.reverse
  | c :: rest, acc =>
    if c = ".." then
      match acc with
      | [] => if abs then normComps abs rest [] else normComps abs rest [".."]
      | top :: tl =>
        if top = ".." then normComps abs rest (".." :: ".." :: tl)
        else normComps abs rest tl
    else normComps abs rest (c :: acc)

/-- Python `os.path.normpath` (POSIX). -/
def normpath (p : String) : String :=
  let abs := isabs p
  let comps := normComps abs ((splitSep '/' p).filter (fun s => !(s = "" || s = "."))) []
  let body := String.intercalate "/" comps
  if abs then (if body = "" then "/" else "/" ++ body)
  else (if body = "" then "." else body)

/-- Python `os.path.abspath`, relative to the host process working
directory `hostCwd` (`os.getcwd()`). -/
def abspath (hostCwd p : String) : String :=
  normpath (if isabs p then p else pjoin hostCwd p)

/-- Python `os.path.basename`. -/
def basename (p : String) : String :=
  (splitSep '/' p).getLastD ""

/-- Python `os.path.dirname`. -/
def dirname (p : String) : String :=
  let parts := splitSep '/' p
  if parts.length ≤ 1 then ""
  else
    let d := String.intercalate "/" parts.dropLast
    if d = "" then "/" else d

/- ### TrainingProcessManager state -/

/-- A `subprocess.Popen` handle: an identity and the fixed value its
`poll()` returns during the step under consideration (`none` while the
child is running, the exit code once it has exited). -/
structure Popen where
  pid : Nat
  pollResult : Option Int
deriving DecidableEq

/-- The mutable state of `TrainingProcessManager`
(process.py lines 34-37 and 386). -/
structure Manager where
  process : Option Popen
  stopEventSet : Bool
  logLines : List String
  wrapperScript : Option String
deriving DecidableEq

/-- `TrainingProcessManager.is_running` (process.py lines 572-574):
`self.process is not None and self.process.poll() is None`. -/
def is_running (m : Manager) : Bool :=
  match m.process with
  | some p => p.pollResult.isNone
  | none => false

/-- `TrainingProcessManager.get_last_logs` (process.py lines 576-579):
`"\n".join(self.log_lines[-n:])`.  Python's `[-n:]` with `n = 0` is the
whole list, hence the special case. -/
def get_last_logs (m : Manager) (n : Nat) : String :=
  let tail := if n = 0 then m.logLines else m.logLines.drop (m.logLines.length - n)
  String.intercalate "\n" tail

/-- One append step of the `_log_reader` ring buffer
(process.py lines 496-501): append the line, and if the buffer length
exceeds 500 keep only the last 300 entries (`self.log_lines[-300:]`). -/
def appendLogLine (buf : List String) (line : String) : List String :=
  let b := buf ++ [line]
  if b.length > 500 then b.drop (b.length - 300) else b

/-- The log buffer produced by feeding a whole sequence of lines through
`_log_reader`, starting from the empty buffer set by `start_training`
(process.py line 150). -/
def logBuf (lines : List String) : List String :=
  lines.foldl appendLogLine []

/-- Whether the termination signalling inside `stop_training`
(`os.kill` / `terminate` / `wait`) completes or raises; the `except`
block swallows either outcome. -/
inductive StopOutcome where
  | ok : StopOutcome
  | raises : StopOutcome
deriving DecidableEq

/-- `TrainingProcessManager.stop_training` (process.py lines 544-570):
an early return when `self.process` is `None`, otherwise signal
termination inside `try/except` and set `self.process = None` in the
`finally` block, whatever the signalling outcome `o` was. -/
def stop_training (m : Manager) (o : StopOutcome) : Manager :=
  match m.process, o with
  | none, _ => m
  | some _, _ => { m with process := none }

/-- Outcome of a `start_training` call at the manager level. -/
inductive StartOutcome where
  | alreadyRunning : StartOutcome
  | raisedNotFound : StartOutcome
  | raisedSpawn : StartOutcome
  | started : StartOutcome
deriving DecidableEq

/-- The manager-state effect of `TrainingProcessManager.start_training`
(process.py lines 139-479): if a live process exists the call returns at
line 147 leaving the state untouched; otherwise the stop event is
cleared and the log buffer reset (lines 149-150), the wrapper path is
stored (line 386), then either the script-existence check raises
`FileNotFoundError` (line 435, modelled by `notFound`), or the spawn
either yields a fresh handle or raises (line 479, `spawn = none`). -/
def start_training_step (m : Manager) (wrapperPath : Option String)
    (notFound : Bool) (spawn : Option Popen) : Manager × StartOutcome :=
  if is_running m then (m, .alreadyRunning)
  else
    let m1 : Manager :=
      { m with stopEventSet := false, logLines := [], wrapperScript := wrapperPath }
    if notFound then (m1, .raisedNotFound)
    else
      match spawn with
      | some p => ({ m1 with process := some p }, .started)
      | none => (m1, .raisedSpawn)

/-- `Flux2_Runner.run_training` (process.py lines 612-700) at the level
of the manager state.  JSON/shlex parsing of `cmd_args` is abstracted to
the flag `parsedOk` (line 666 returns the invalid-format status), and
the dynamic exception text appended to the error statuses is omitted;
everything else follows the source's branch structure. -/
def run_training (m : Manager) (parsedOk : Bool) (wrapperPath : Option String)
    (notFound : Bool) (spawn : Option Popen) (trigger : Bool) : Manager × String :=
  if !trigger then
    if is_running m then
      (m, "⏳ Training in progress... Set trigger=True to get status")
    else
      (m, "⏸️ Ready. Set trigger=True to start training")
  else if is_running m then
    (m, "⏳ Training running:\n" ++ get_last_logs m 5)
  else if !parsedOk then
    (m, "❌ Error: Invalid command format")
  else
    match start_training_step m wrapperPath notFound spawn with
    | (m1, .raisedNotFound) => (m1, "❌ File Error: Training script not found")
    | (m1, .raisedSpawn) => (m1, "❌ Error: FAILED TO START PROCESS")
    | (m1, _) =>
      (m1, "✅ Training Started! Set trigger=False to monitor, set trigger=True again to check status")

/-- `Flux2_Stopper.stop_process` (process.py lines 725-755). -/
def stop_process (m : Manager) (stop : Bool) (o : StopOutcome) : Manager × String :=
  if !stop then
    if is_running m then (m, "⏳ Training running. Set stop=True to stop")
    else (m, "ℹ️ No training running")
  else if is_running m then
    (stop_training m o, "✅ Stop signal sent. Process terminating...")
  else
    (m, "ℹ️ No training running to stop")

/- ### Script and candidate-directory resolution (process.py lines 184-230) -/

/-- The fixed candidate list for a relative script name
(process.py lines 201-208). -/
def possiblePaths (cwd : String) : List String :=
  [cwd,
   pjoin cwd "sd-scripts",
   pjoin (pjoin cwd "kohya_ss") "sd-scripts",
   pjoin (pjoin (pjoin cwd "kohya_train") "kohya_ss") "sd-scripts",
   pjoin (pjoin cwd "custom_nodes") "sd-scripts",
   pjoin (pjoin cwd "..") "sd-scripts"]

/-- The first loop of `start_training` (process.py lines 189-197): walk
the command arguments, remember the basename of each `.py` argument as
`script_name`, and break with the directory of the first `.py` argument
that exists as given.  Returns `(script_name, found directory and
absolute script path)`. -/
def scanScript (fs : String → Bool) (hostCwd : String) :
    List String → Option String → Option String × Option (String × String)
  | [], sn => (sn, none)
  | arg :: rest, sn =>
    if strEndsWith arg ".py" then
      if fs arg then
        (some (basename arg), some (dirname (abspath hostCwd arg), abspath hostCwd arg))
      else scanScript fs hostCwd rest (some (basename arg))
    else scanScript fs hostCwd rest sn

/-- The `ResolvedPaths`-like data produced by the resolution block:
`script_dir`, `original_script_path`, and the (possibly rewritten)
command list. -/
structure Resolution where
  script_dir : String
  original_script_path : Option String
  cmd_list : List String
deriving DecidableEq

/-- Relative-name resolution (process.py lines 199-230): a first pass
over all candidates looking for the script file (lines 210-219,
rewriting every relative `.py` argument to the absolute resolved path),
and - only when that pass found nothing - a second pass over all
candidates looking for a `library` directory (lines 220-230, rewriting
every `.py` argument).  When both passes fail, `script_dir` keeps its
`cwd` default (line 184) and the command is untouched. -/
def resolveRelative (fs : String → Bool) (hostCwd cwd name : String)
    (cmd : List String) : Resolution :=
  match (possiblePaths cwd).find? (fun p => fs (pjoin p name)) with
  | some p =>
    let orig := abspath hostCwd (pjoin p name)
    { script_dir := abspath hostCwd p,
      original_script_path := some orig,
      cmd_list := cmd.map (fun a => if strEndsWith a ".py" && !isabs a then orig else a) }
  | none =>
    match (possiblePaths cwd).find? (fun p => fs (pjoin p "library")) with
    | some p =>
      let sd := abspath hostCwd p
      let orig := pjoin sd name
      { script_dir := sd,
        original_script_path := some orig,
        cmd_list := cmd.map (fun a => if strEndsWith a ".py" then orig else a) }
    | none => { script_dir := cwd, original_script_path := none, cmd_list := cmd }

/-- The whole resolution step of `start_training`: the direct scan first
(found absolute or existing path wins immediately), then the candidate
search when the script name is relative, then the `cwd` default. -/
def resolveScript (fs : String → Bool) (hostCwd cwd : String)
    (cmd : List String) : Resolution :=
  match scanScript fs hostCwd cmd none with
  | (_, some (sd, orig)) =>
    { script_dir := sd, original_script_path := some orig, cmd_list := cmd }
  | (some sn, none) => resolveRelative fs hostCwd cwd sn cmd
  | (none, none) => { script_dir := cwd, original_script_path := none, cmd_list := cmd }

/-- The wrapper substitution loop (process.py lines 369-372): replace
the first argument equal to the original script path, or ending in
`flux_train_network.py`, with the wrapper path, then break. -/
def replaceFirst (cmd : List String) (orig wrapperPath : String) : List String :=
  match cmd with
  | [] => []
  | a :: rest =>
    if a == orig || strEndsWith a "flux_train_network.py" then wrapperPath :: rest
    else a :: replaceFirst rest orig wrapperPath

/-- The script-existence verification before spawning
(process.py lines 405-435): take the first `.py` argument, resolve it
against `script_dir` when relative, and raise `FileNotFoundError`
exactly when that path does not exist. -/
def raisesNotFound (fs : String → Bool) (script_dir : String)
    (cmd : List String) : Bool :=
  match cmd.find? (fun a => strEndsWith a ".py") with
  | none => false
  | some s =>
    let s2 := if isabs s then s else pjoin script_dir s
    !fs s2

/-- The synchronous part of `start_training` between resolution and
spawn: resolution, wrapper generation (a fresh file at `wrapperPath`,
created exactly when `original_script_path` was found, process.py
lines 260-383) and the existence check.  Returns whether the call
raises `FileNotFoundError`, together with the final command list and
the resolved script directory. -/
def startPipeline (fs : String → Bool) (hostCwd cwd wrapperPath : String)
    (cmd : List String) : Bool × List String × String :=
  let res := resolveScript fs hostCwd cwd cmd
  match res.original_script_path with
  | some orig =>
    let cmd2 := replaceFirst res.cmd_list orig wrapperPath
    let fs2 : String → Bool := fun p => p == wrapperPath || fs p
    (raisesNotFound fs2 res.script_dir cmd2, cmd2, res.script_dir)
  | none => (raisesNotFound fs res.script_dir res.cmd_list, res.cmd_list, res.script_dir)

/- ### PYTHONPATH composition (venv_manager.py lines 234-261, process.py lines 232-256) -/

/-- `StandalonePackageManager.get_modified_env` restricted to the
`PYTHONPATH` variable (venv_manager.py lines 234-261): when the
`training_libs` directory exists, prepend its path to the current
value (with a separator only when the current value is nonempty). -/
def get_modified_env (libsExists : Bool) (libsPath pythonpath : String) : String :=
  if !libsExists then pythonpath
  else if pythonpath ≠ "" then libsPath ++ ":" ++ pythonpath
  else libsPath

/-- The duplicate-removal loop of process.py lines 248-254: keep the
first occurrence of each nonempty entry. -/
def dedupKeepFirst : List String → List String → List String
  | [], _ => []
  | p :: rest, seen =>
    if p != "" && !seen.contains p then p :: dedupKeepFirst rest (p :: seen)
    else dedupKeepFirst rest seen

/-- The ordered entry list built by process.py lines 237-254: the
resolved script directory, the working directory when different, then
the current `PYTHONPATH` split on `os.pathsep`, deduplicated. -/
def composeParts (script_dir_abs cwd_abs current : String) : List String :=
  let parts :=
    [script_dir_abs]
      ++ (if cwd_abs ≠ script_dir_abs then [cwd_abs] else [])
      ++ (if current ≠ "" then splitSep ':' current else [])
  dedupKeepFirst parts []

/-- The final `PYTHONPATH` value set at process.py line 256. -/
def composePythonPath (script_dir_abs cwd_abs current : String) : String :=
  String.intercalate ":" (composeParts script_dir_abs cwd_abs current)

/-- The composed child `PYTHONPATH` as `start_training` produces it:
`get_modified_env` runs first (process.py line 174), then the
script-directory/cwd prepend-and-dedup block runs on its output. -/
def fullPythonPath (libsExists : Bool) (libsPath script_dir_abs cwd_abs basePythonPath : String) :
    String :=
  composePythonPath script_dir_abs cwd_abs (get_modified_env libsExists libsPath basePythonPath)

/- ### Wrapper temporary-file lifecycle (process.py lines 361-386, 471-479, 525-533) -/

/-- Filesystem effect of `start_training` on temporary files: when an
original script path was resolved, the wrapper file is created
(`tempfile.mkstemp`, line 364) and its path stored in
`self._wrapper_script` (line 386); then the spawn either succeeds
(the `_log_reader` thread will run) or raises out of `start_training`
(line 479).  Returns (files, stored wrapper path, spawned?). -/
def start_training_files (files : List String) (origFound : Bool)
    (wrapperPath : String) (spawnOk : Bool) : List String × Option String × Bool :=
  if origFound then (wrapperPath :: files, some wrapperPath, spawnOk)
  else (files, none, spawnOk)

/-- The `finally` block of `_log_reader` (process.py lines 525-533):
remove the stored wrapper file if it exists.  This block runs on every
exit path of the reader thread (normal end of stream, reader error, or
stop), but only if the reader thread was started at all. -/
def log_reader_cleanup (files : List String) (wrapperScript : Option String) :
    List String :=
  match wrapperScript with
  | some w => if files.contains w then files.erase w else files
  | none => files

/-- Temporary files existing after one full run attempt: the reader's
cleanup runs only when the spawn succeeded; a spawn failure propagates
out of `start_training` before the reader thread is started. -/
def run_files (files : List String) (origFound : Bool) (wrapperPath : String)
    (spawnOk : Bool) : List String :=
  let r := start_training_files files origFound wrapperPath spawnOk
  if r.2.2 then log_reader_cleanup r.1 r.2.1 else r.1

/- ### Blocked-module substitutes (import_blocker.py lines 56-89, process.py lines 274-298) -/

/-- A value model for the Python objects involved in the blocked-module
substitutes: the `_EmergencyTriton` instance of the generated wrapper,
its nested `_Language` class and instance, the plain `types.ModuleType`
dummies built by `ProblematicModuleBlocker.load_module`, the builtin
`type`, `None`, the pass-through closure returned by
`_EmergencyTriton.__call__`, and opaque user functions. -/
inductive PyObj where
  | emergencyTriton : PyObj
  | langClass : PyObj
  | langInst : PyObj
  | pyType : PyObj
  | pyNone : PyObj
  | blockedModule (name : String) : PyObj
  | moduleMeta (attr : String) : PyObj
  | passWrapper : PyObj
  | pyFun (n : Nat) : PyObj
deriving DecidableEq

/-- Attributes the `load_module` dummy module actually carries
(import_blocker.py lines 64-87 plus the `ModuleType` built-ins). -/
def blockedModuleAttrs : List String :=
  ["__package__", "__loader__", "__file__", "__path__", "__doc__",
   "__all__", "_warned", "__name__", "__dict__"]

/-- Python attribute lookup on the modelled objects; `none` is an
`AttributeError`.  `_EmergencyTriton` resolves its class attributes
`language`, `compiler`, `runtime`, `_Language` first and falls back to
`__getattr__`, which returns `self` (process.py lines 274-289);
`_Language` only has `dtype = type`; the `load_module` dummy is a plain
module object whose lookup fails for any name it was not given
(import_blocker.py lines 62-87; a fresh `ModuleType` also has
`__spec__ = None`). -/
def pyGetattr : PyObj → String → Option PyObj
  | .emergencyTriton, a =>
    if a = "language" then some .langInst
    else if a = "compiler" then some .pyNone
    else if a = "runtime" then some .pyNone
    else if a = "_Language" then some .langClass
    else some .emergencyTriton
  | .langClass, a => if a = "dtype" then some .pyType else none
  | .langInst, a => if a = "dtype" then some .pyType else none
  | .blockedModule _, a =>
    if a = "__spec__" then some .pyNone
    else if blockedModuleAttrs.contains a then some (.moduleMeta a)
    else none
  | _, _ => none

/-- Python truthiness of the modelled objects: none of the substitute
classes defines `__bool__` or `__len__`, so instances and module objects
are truthy; `None` is falsy; the dummy module's `__path__` and
`__all__` are empty lists and therefore falsy. -/
def pyTruthy : PyObj → Bool
  | .pyNone => false
  | .moduleMeta a => !(a = "__path__" || a = "__all__")
  | _ => true

/-- Calling a modelled object with one positional argument; `none` is a
`TypeError`.  `_EmergencyTriton.__call__(*args)` ignores its arguments
and returns the fresh local closure `wrapper` (process.py lines
286-289); that closure applied to `f` returns `f`; the `_Language`
class takes no constructor arguments, so calling it with one is a
`TypeError`; module objects are not callable.  Other combinations are
not reached by the claims and are left as `TypeError`. -/
def pyCall1 : PyObj → PyObj → Option PyObj
  | .emergencyTriton, _ => some .passWrapper
  | .passWrapper, f => some f
  | .langClass, _ => none
  | _, _ => none

/- ### Concrete filesystem fixtures used by individual properties -/

/-- Fixture: candidate 2 of `possiblePaths "/proj"` contains only the
support-library directory, candidate 3 contains the script file. -/
def fsLibThenScript : String → Bool :=
  fun p => ["/proj/sd-scripts/library", "/proj/kohya_ss/sd-scripts/train.py"].contains p

/-- Fixture: no candidate contains `train.py`; candidate 2 contains the
support-library directory. -/
def fsLibOnly : String → Bool :=
  fun p => p == "/proj/sd-scripts/library"

/-- Fixture: candidates 1 and 3 of `possiblePaths "/proj"` both contain
the script file. -/
def fsTwoMatches : String → Bool :=
  fun p => ["/proj/train.py", "/proj/kohya_ss/sd-scripts/train.py"].contains p

/-- Fixture: the script exists directly under candidate 1 (`cwd`). -/
def fsScriptAtCwd : String → Bool :=
  fun p => p == "/proj/train.py"

/-! ## Helper lemmas -/

/-- One append step keeps the buffer length at or below 500. -/
theorem appendLogLine_length_le (buf : List String) (l : String) :
    (appendLogLine buf l).length ≤ 500 := by
  simp only [appendLogLine]
  split
  · rw [List.length_drop]
    omega
  · rename_i hc
    rw [List.length_append] at hc ⊢
    omega

/-- One append step turns a suffix of the processed lines into a suffix
of the processed lines extended by the new line. -/
theorem appendLogLine_suffix (buf pre : List String) (l : String)
    (hs : List.IsSuffix buf pre) :
    List.IsSuffix (appendLogLine buf l) (pre ++ [l]) := by
  have hbase : List.IsSuffix (buf ++ [l]) (pre ++ [l]) := by
    obtain ⟨t, ht⟩ := hs
    exact ⟨t, by rw [← List.append_assoc, ht]⟩
  simp only [appendLogLine]
  split
  · exact (List.drop_suffix _ _).trans hbase
  · exact hbase

/-- Invariant of the whole log-reader loop: starting from a buffer that
is a bounded suffix of the lines already processed, folding further
lines keeps the length bound and the suffix property. -/
theorem logBuf_invariant (lines : List String) :
    ∀ buf pre : List String, buf.length ≤ 500 → List.IsSuffix buf pre →
      (List.foldl appendLogLine buf lines).length ≤ 500 ∧
        List.IsSuffix (List.foldl appendLogLine buf lines) (pre ++ lines) := by
  induction lines with
  | nil =>
    intro buf pre h hs
    simpa using ⟨h, hs⟩
  | cons l rest ih =>
    intro buf pre h hs
    have h1 := appendLogLine_length_le buf l
    have h2 := appendLogLine_suffix buf pre l hs
    have h3 := ih (appendLogLine buf l) (pre ++ [l]) h1 h2
    simpa [List.append_assoc] using h3

/-- The dedup loop produces a duplicate-free list avoiding `seen`. -/
theorem dedupKeepFirst_sound (xs : List String) :
    ∀ seen : List String, (dedupKeepFirst xs seen).Nodup ∧
      ∀ a ∈ dedupKeepFirst xs seen, a ∉ seen := by
  induction xs with
  | nil =>
    intro seen
    simp [dedupKeepFirst]
  | cons p rest ih =>
    intro seen
    simp only [dedupKeepFirst]
    split
    · rename_i hc
      simp at hc
      have hp : p ∉ seen := hc.2
      obtain ⟨ihn, ihs⟩ := ih (p :: seen)
      refine ⟨List.nodup_cons.mpr ⟨fun hmem => ?_, ihn⟩, ?_⟩
      · exact (ihs p hmem) (List.mem_cons_self p seen)
      · intro a ha
        rcases List.mem_cons.mp ha with rfl | ha2
        · exact hp
        · exact fun hmem => (ihs a ha2) (List.mem_cons_of_mem p hmem)
    · exact ih seen

/-! ## Claim theorems -/

/-- C1: while a session is RUNNING, a `start` call leaves the manager
state (and in particular the process handle) exactly as it was, spawns
nothing, and `Flux2_Runner.run_training` with `trigger=True` returns
the running-status string built from the existing session's last log
lines. -/
theorem c1_start_while_running_noop (m : Manager) (pk : Bool)
    (wp : Option String) (nf : Bool) (sp : Option Popen)
    (h : is_running m = true) :
    start_training_step m wp nf sp = (m, StartOutcome.alreadyRunning) ∧
    (run_training m pk wp nf sp true).1 = m ∧
    (run_training m pk wp nf sp true).1.process = m.process ∧
    (run_training m pk wp nf sp true).2 = "⏳ Training running:\n" ++ get_last_logs m 5 := by
  simp [start_training_step, run_training, h]

/-- Witness for C1 at a concrete running manager. -/
theorem c1_start_while_running_noop_witness :
    is_running ⟨some ⟨4242, none⟩, false, ["epoch 1"], none⟩ = true ∧
    (start_training_step ⟨some ⟨4242, none⟩, false, ["epoch 1"], none⟩ none false none =
        (⟨some ⟨4242, none⟩, false, ["epoch 1"], none⟩, StartOutcome.alreadyRunning) ∧
      (run_training ⟨some ⟨4242, none⟩, false, ["epoch 1"], none⟩ true none false none true).1 =
        ⟨some ⟨4242, none⟩, false, ["epoch 1"], none⟩ ∧
      (run_training ⟨some ⟨4242, none⟩, false, ["epoch 1"], none⟩ true none false none true).1.process =
        (⟨some ⟨4242, none⟩, false, ["epoch 1"], none⟩ : Manager).process ∧
      (run_training ⟨some ⟨4242, none⟩, false, ["epoch 1"], none⟩ true none false none true).2 =
        "⏳ Training running:\n" ++ get_last_logs ⟨some ⟨4242, none⟩, false, ["epoch 1"], none⟩ 5) :=
  ⟨by decide, c1_start_while_running_noop ⟨some ⟨4242, none⟩, false, ["epoch 1"], none⟩ true none false none (by decide)⟩

/-- C2 (code evaluation at the failing input): the substitute that the
blocker registers for the blocked name `triton` is a plain
module object, so the first chained attribute access already fails
(`AttributeError`, modelled as `none`), the object is truthy, and
calling it is a `TypeError`; the emergency wrapper substitute is also
truthy and calling it with a function returns the fresh pass-through
closure, not that function. -/
theorem c2_substitute_objects_eval :
    pyGetattr (PyObj.blockedModule "triton") "language" = none ∧
    pyTruthy (PyObj.blockedModule "triton") = true ∧
    pyCall1 (PyObj.blockedModule "triton") (PyObj.pyFun 0) = none ∧
    pyGetattr PyObj.emergencyTriton "attr1" = some PyObj.emergencyTriton ∧
    pyTruthy PyObj.emergencyTriton = true ∧
    pyCall1 PyObj.emergencyTriton (PyObj.pyFun 0) = some PyObj.passWrapper ∧
    PyObj.passWrapper ≠ PyObj.pyFun 0 := by
  decide

/-- C5 counterexample: when the spawn fails after the wrapper file was
created, `start_training` raises before the log-reader thread (and so
its `finally` cleanup) ever runs, and the temporary wrapper file is
left behind. -/
theorem c5_wrapper_leak_counterexample :
    run_files [] true "/tmp/flux_train_wrapper_leak.py" false =
      ["/tmp/flux_train_wrapper_leak.py"] ∧
    ["/tmp/flux_train_wrapper_leak.py"] ≠ ([] : List String) := by
  decide

/-- C5 amended: on every run whose spawn succeeds, the log reader's
cleanup deletes the wrapper file on each of its exit paths, restoring
the original set of temporary files; and any run creates at most one
temporary file. -/
theorem c5_wrapper_cleanup_amended (files : List String) (origFound : Bool)
    (w : String) (b : Bool) :
    run_files files origFound w true = files ∧
    (run_files files origFound w b).length ≤ files.length + 1 := by
  constructor
  · cases origFound <;>
      simp [run_files, start_training_files, log_reader_cleanup,
        List.contains_cons, List.erase_cons_head]
  · cases origFound <;> cases b <;>
      simp [run_files, start_training_files, log_reader_cleanup,
        List.contains_cons, List.erase_cons_head]

/-- C6: the log buffer produced by any sequence of appended lines never
exceeds 500 entries and is always a contiguous order-preserving suffix
of the full line sequence; and an append onto a full buffer of 500
entries evicts down to exactly the last 300 entries. -/
theorem c6_log_buffer_bound (lines buf : List String) (l : String)
    (h : buf.length = 500) :
    (logBuf lines).length ≤ 500 ∧ List.IsSuffix (logBuf lines) lines ∧
    (appendLogLine buf l).length = 300 ∧
    appendLogLine buf l = (buf ++ [l]).drop 201 := by
  have haux := logBuf_invariant lines [] [] (by simp) ⟨[], rfl⟩
  have hb : (buf ++ [l]).length = 501 := by simp [h]
  have heq : appendLogLine buf l = (buf ++ [l]).drop 201 := by
    simp only [appendLogLine]
    rw [hb]
    norm_num
  refine ⟨?_, ?_, ?_, heq⟩
  · simpa [logBuf] using haux.1
  · simpa [logBuf] using haux.2
  · rw [heq, List.length_drop, hb]

/-- Witness for C6 at a concrete line sequence and a concrete full
buffer. -/
theorem c6_log_buffer_bound_witness :
    (List.replicate 500 "x").length = 500 ∧
    ((logBuf ["a"]).length ≤ 500 ∧ List.IsSuffix (logBuf ["a"]) ["a"] ∧
      (appendLogLine (List.replicate 500 "x") "y").length = 300 ∧
      appendLogLine (List.replicate 500 "x") "y" =
        (List.replicate 500 "x" ++ ["y"]).drop 201) :=
  ⟨List.length_replicate 500 "x",
   c6_log_buffer_bound ["a"] (List.replicate 500 "x") "y" (List.length_replicate 500 "x")⟩

/-- C7: `stop_training` always ends with the process handle cleared and
the supervisor not running, whatever the termination-signalling outcome
was; a second stop is a no-op; a stop with no stored handle changes
nothing and raises nothing; and after `Flux2_Stopper.stop_process` with
`stop=True` the supervisor is never left running. -/
theorem c7_stop_total_idempotent (m : Manager) (o o2 : StopOutcome) :
    (stop_training m o).process = none ∧
    is_running (stop_training m o) = false ∧
    stop_training (stop_training m o) o2 = stop_training m o ∧
    (∀ (e : Bool) (lg : List String) (w : Option String),
      stop_training ⟨none, e, lg, w⟩ o = ⟨none, e, lg, w⟩) ∧
    is_running (stop_process m true o).1 = false := by
  obtain ⟨p, e, lg, w⟩ := m
  cases p with
  | none => simp [stop_training, is_running, stop_process]
  | some pp =>
    cases hpoll : pp.pollResult <;>
      simp [stop_training, is_running, stop_process, hpoll]

/-- C10: with `trigger=False` (resp. `stop=False`) the node functions
leave the manager state exactly unchanged and only return the
human-readable status string determined by whether training is
running. -/
theorem c10_no_trigger_no_side_effects (m : Manager) (pk : Bool)
    (wp : Option String) (nf : Bool) (sp : Option Popen) (o : StopOutcome) :
    (run_training m pk wp nf sp false).1 = m ∧
    (run_training m pk wp nf sp false).2 =
      (if is_running m then "⏳ Training in progress... Set trigger=True to get status"
       else "⏸️ Ready. Set trigger=True to start training") ∧
    (stop_process m false o).1 = m ∧
    (stop_process m false o).2 =
      (if is_running m then "⏳ Training running. Set stop=True to stop"
       else "ℹ️ No training running") := by
  by_cases h : is_running m <;> simp [run_training, stop_process, h]

/-- C4 counterexample: with an isolated package directory present, the
composed search-path variable puts the resolved script directory first
and the isolated package directory only after the working directory,
not the isolated package directory first as claimed. -/
theorem c4_env_order_counterexample :
    fullPythonPath true "/L" "/C" "/C" "/A:/B" = "/C:/L:/A:/B" ∧
    fullPythonPath true "/L" "/C" "/C" "/A:/B" ≠ "/L:/C:/A:/B" := by
  decide

/-- C4 amended: the composed variable prepends, in priority order, the
resolved script directory, the working directory (when different), then
the isolated package directory (which `get_modified_env` prepended to
the pre-existing value beforehand), then the pre-existing entries;
duplicates are removed keeping the first occurrence, so for existing
value `/A:/B` and resolved directory `/C` the result is `/C:/A:/B` with
no duplicate of `/C` even if `/C` already appeared; and the entry list
is always duplicate-free. -/
theorem c4_env_compose_amended :
    fullPythonPath true "/L" "/C" "/C" "/A:/B" = "/C:/L:/A:/B" ∧
    fullPythonPath false "/L" "/C" "/C" "/A:/B" = "/C:/A:/B" ∧
    fullPythonPath false "/L" "/C" "/C" "/A:/C:/B" = "/C:/A:/B" ∧
    fullPythonPath true "/L" "/C" "/D" "/A:/B" = "/C:/D:/L:/A:/B" ∧
    fullPythonPath true "/L" "/C" "/C" "" = "/C:/L" ∧
    ∀ sd cw cur : String, (composeParts sd cw cur).Nodup := by
  refine ⟨by decide, by decide, by decide, by decide, by decide, ?_⟩
  intro sd cw cur
  exact (dedupKeepFirst_sound _ []).1

/-- C3 counterexample: with the support-library directory in candidate 2
and the script file in candidate 3, resolution picks candidate 3 (the
script pass runs over all candidates before any library check), not the
earlier library-only candidate as claimed. -/
theorem c3_per_candidate_order_counterexample :
    fsLibThenScript (pjoin "/proj/sd-scripts" "library") = true ∧
    fsLibThenScript (pjoin "/proj/sd-scripts" "train.py") = false ∧
    (resolveRelative fsLibThenScript "/proj" "/proj" "train.py"
        ["accelerate", "train.py"]).script_dir = "/proj/kohya_ss/sd-scripts" ∧
    (resolveRelative fsLibThenScript "/proj" "/proj" "train.py"
        ["accelerate", "train.py"]).script_dir ≠ "/proj/sd-scripts" := by
  decide

/-- C3 amended: resolution makes a full pass over all candidates
checking for the script file, and only when no candidate contains the
script does a second full pass check each candidate for the
support-library directory; so any candidate with the script beats every
candidate that has only the library directory. -/
theorem c3_two_pass_resolution (fs : String → Bool) (hostCwd cwd name : String)
    (cmd : List String) :
    (∀ p, (possiblePaths cwd).find? (fun q => fs (pjoin q name)) = some p →
      (resolveRelative fs hostCwd cwd name cmd).script_dir = abspath hostCwd p ∧
      (resolveRelative fs hostCwd cwd name cmd).original_script_path =
        some (abspath hostCwd (pjoin p name))) ∧
    ((possiblePaths cwd).find? (fun q => fs (pjoin q name)) = none →
      ∀ q, (possiblePaths cwd).find? (fun r => fs (pjoin r "library")) = some q →
        (resolveRelative fs hostCwd cwd name cmd).script_dir = abspath hostCwd q) := by
  constructor
  · intro p hp
    unfold resolveRelative
    rw [hp]
    exact ⟨rfl, rfl⟩
  · intro h1 q hq
    unfold resolveRelative
    rw [h1, hq]

/-- Witness for C3's amended property at the counterexample fixture. -/
theorem c3_two_pass_resolution_witness :
    (possiblePaths "/proj").find? (fun q => fsLibThenScript (pjoin q "train.py")) =
      some "/proj/kohya_ss/sd-scripts" ∧
    ((resolveRelative fsLibThenScript "/proj" "/proj" "train.py"
        ["accelerate", "train.py"]).script_dir =
      abspath "/proj" "/proj/kohya_ss/sd-scripts" ∧
     (resolveRelative fsLibThenScript "/proj" "/proj" "train.py"
        ["accelerate", "train.py"]).original_script_path =
      some (abspath "/proj" (pjoin "/proj/kohya_ss/sd-scripts" "train.py"))) :=
  ⟨by decide,
   (c3_two_pass_resolution fsLibThenScript "/proj" "/proj" "train.py"
      ["accelerate", "train.py"]).1 "/proj/kohya_ss/sd-scripts" (by decide)⟩

/-- C9: when candidate 1 of the fixed list contains the script (in
particular when candidates 1 and 3 both do), candidate 1 is chosen, and
every relative `.py` argument of the command is rewritten in place to
the absolute resolved script path. -/
theorem c9_first_candidate_wins (fs : String → Bool) (hostCwd cwd name : String)
    (cmd : List String)
    (h1 : fs (pjoin cwd name) = true)
    (h3 : fs (pjoin (pjoin (pjoin cwd "kohya_ss") "sd-scripts") name) = true) :
    resolveRelative fs hostCwd cwd name cmd =
      { script_dir := abspath hostCwd cwd,
        original_script_path := some (abspath hostCwd (pjoin cwd name)),
        cmd_list := cmd.map (fun a =>
          if strEndsWith a ".py" && !isabs a then abspath hostCwd (pjoin cwd name)
          else a) } := by
  unfold resolveRelative possiblePaths
  rw [List.find?_cons_of_pos (p := fun q => fs (pjoin q name)) _ h1]

/-- Witness for C9 at a fixture with matches at candidates 1 and 3. -/
theorem c9_first_candidate_wins_witness :
    fsTwoMatches (pjoin "/proj" "train.py") = true ∧
    resolveRelative fsTwoMatches "/proj" "/proj" "train.py"
        ["accelerate", "launch", "train.py", "--x"] =
      { script_dir := abspath "/proj" "/proj",
        original_script_path := some (abspath "/proj" (pjoin "/proj" "train.py")),
        cmd_list := ["accelerate", "launch", "train.py", "--x"].map (fun a =>
          if strEndsWith a ".py" && !isabs a then abspath "/proj" (pjoin "/proj" "train.py")
          else a) } :=
  ⟨by decide,
   c9_first_candidate_wins fsTwoMatches "/proj" "/proj" "train.py"
     ["accelerate", "launch", "train.py", "--x"] (by decide) (by decide)⟩

/-- C8 counterexample: no candidate contains the script file, yet
`start` does not raise the script-not-found error, because a candidate
contains the support-library directory and the library fallback then
substitutes the freshly created wrapper file, which exists. -/
theorem c8_script_not_found_counterexample :
    (∀ p ∈ possiblePaths "/proj", fsLibOnly (pjoin p "train.py") = false) ∧
    (startPipeline fsLibOnly "/proj" "/proj" "/tmp/flux_train_wrapper_1.py"
        ["accelerate", "train.py"]).1 = false := by
  decide

/-- C8 amended: for a command of the shape `[interpreter, script]` with
a bare relative script name, `start` raises the script-not-found error
if and only if no candidate directory contains the script file AND no
candidate directory contains the support-library directory (a candidate
with only the library directory makes `start` proceed: the generated
wrapper is substituted and exists, so the failure is deferred to the
child).  On the synchronous script-not-found path, and on a spawn
failure, the error propagates to the caller and the manager gains no
process handle. -/
theorem c8_script_not_found_iff_amended (fs : String → Bool)
    (hostCwd cwd a s w : String)
    (ha : strEndsWith a ".py" = false)
    (hafl : strEndsWith a "flux_train_network.py" = false)
    (hs : strEndsWith s ".py" = true)
    (hrel : isabs s = false)
    (hbase : basename s = s)
    (hdirect : fs s = false)
    (hw1 : strEndsWith w ".py" = true)
    (hw2 : isabs w = true)
    (hne1 : ∀ p ∈ possiblePaths cwd, a ≠ abspath hostCwd (pjoin p s))
    (hne2 : ∀ p ∈ possiblePaths cwd, a ≠ pjoin (abspath hostCwd p) s) :
    ((startPipeline fs hostCwd cwd w [a, s]).1 = true ↔
      ∀ p ∈ possiblePaths cwd,
        fs (pjoin p s) = false ∧ fs (pjoin p "library") = false) ∧
    (∀ (m : Manager) (wp : Option String) (sp : Option Popen),
      is_running m = false →
        (start_training_step m wp true sp).2 = StartOutcome.raisedNotFound ∧
        (start_training_step m wp true sp).1.process = m.process) ∧
    (∀ (m : Manager) (wp : Option String), is_running m = false →
      (start_training_step m wp false none).2 = StartOutcome.raisedSpawn ∧
      (start_training_step m wp false none).1.process = m.process) := by
  have hscan : scanScript fs hostCwd [a, s] none = (some s, none) := by
    simp [scanScript, ha, hs, hdirect, hbase]
  have hres : resolveScript fs hostCwd cwd [a, s] =
      resolveRelative fs hostCwd cwd s [a, s] := by
    simp [resolveScript, hscan]
  refine ⟨?_, ?_, ?_⟩
  · rcases hf1 : (possiblePaths cwd).find? (fun p => fs (pjoin p s)) with _ | p
    · rcases hf2 : (possiblePaths cwd).find? (fun p => fs (pjoin p "library")) with _ | q
      · -- neither pass matched: the call raises, and both conditions hold
        have hcwd : fs (pjoin cwd s) = false := by
          have hmem : cwd ∈ possiblePaths cwd := by simp [possiblePaths]
          have := List.find?_eq_none.mp hf1 cwd hmem
          simpa using this
        have hpipe : (startPipeline fs hostCwd cwd w [a, s]).1 = true := by
          unfold startPipeline
          rw [hres]
          unfold resolveRelative
          rw [hf1, hf2]
          simp [raisesNotFound, List.find?_cons, ha, hs, hrel, hcwd]
        rw [hpipe]
        simp only [true_iff]
        intro p hp
        refine ⟨?_, ?_⟩
        · have := List.find?_eq_none.mp hf1 p hp
          simpa using this
        · have := List.find?_eq_none.mp hf2 p hp
          simpa using this
      · -- library fallback: the wrapper is substituted and exists, no raise
        have hqmem : q ∈ possiblePaths cwd := List.mem_of_find?_eq_some hf2
        have hqlib : fs (pjoin q "library") = true := by
          simpa using List.find?_some hf2
        have hbeq : (a == pjoin (abspath hostCwd q) s) = false := by
          simpa using hne2 q hqmem
        have hpipe : (startPipeline fs hostCwd cwd w [a, s]).1 = false := by
          unfold startPipeline
          rw [hres]
          unfold resolveRelative
          rw [hf1, hf2]
          simp [replaceFirst, raisesNotFound, List.find?_cons, ha, hs, hafl,
            hbeq, hw1, hw2]
        rw [hpipe]
        apply iff_of_false (by simp)
        intro hall
        have := (hall q hqmem).2
        rw [this] at hqlib
        exact Bool.false_ne_true hqlib
    · -- a candidate contains the script: resolved, wrapper substituted, no raise
      have hpmem : p ∈ possiblePaths cwd := List.mem_of_find?_eq_some hf1
      have hptrue : fs (pjoin p s) = true := by
        simpa using List.find?_some hf1
      have hbeq : (a == abspath hostCwd (pjoin p s)) = false := by
        simpa using hne1 p hpmem
      have hpipe : (startPipeline fs hostCwd cwd w [a, s]).1 = false := by
        unfold startPipeline
        rw [hres]
        unfold resolveRelative
        rw [hf1]
        simp [replaceFirst, raisesNotFound, List.find?_cons, ha, hs, hrel, hafl,
          hbeq, hw1, hw2]
      rw [hpipe]
      apply iff_of_false (by simp)
      intro hall
      have := (hall p hpmem).1
      rw [this] at hptrue
      exact Bool.false_ne_true hptrue
  · intro m wp sp hm
    simp [start_training_step, hm]
  · intro m wp hm
    simp [start_training_step, hm]

/-- Witness for C8's amended property at a concrete fixture where the
script sits directly in candidate 1. -/
theorem c8_script_not_found_iff_amended_witness :
    strEndsWith "accelerate" ".py" = false ∧
    (((startPipeline fsScriptAtCwd "/proj" "/proj" "/tmp/flux_train_wrapper_1.py"
        ["accelerate", "train.py"]).1 = true ↔
      ∀ p ∈ possiblePaths "/proj",
        fsScriptAtCwd (pjoin p "train.py") = false ∧
        fsScriptAtCwd (pjoin p "library") = false) ∧
    (∀ (m : Manager) (wp : Option String) (sp : Option Popen),
      is_running m = false →
        (start_training_step m wp true sp).2 = StartOutcome.raisedNotFound ∧
        (start_training_step m wp true sp).1.process = m.process) ∧
    (∀ (m : Manager) (wp : Option String), is_running m = false →
      (start_training_step m wp false none).2 = StartOutcome.raisedSpawn ∧
      (start_training_step m wp false none).1.process = m.process)) :=
  ⟨by decide,
   c8_script_not_found_iff_amended fsScriptAtCwd "/proj" "/proj" "accelerate"
     "train.py" "/tmp/flux_train_wrapper_1.py" (by decide) (by decide) (by decide)
     (by decide) (by decide) (by decide) (by decide) (by decide) (by decide)
     (by decide)⟩
